import Mathlib

/-!
A shallow embedding of `csrc/custom/custom.cpp`: the pybind11 binding layer
of the repository, which exposes the GPU matrix-multiplication entry points
`LLMM1` and `MMCustomGPU`. The external kernels `LLGemm1` and `MMGPUKernel`
are only declared in the source, so a call into them is recorded here as an
effect capturing exactly the arguments passed. Host-framework failures
(out-of-range dimension lookup in `at::Tensor::size`, dtype check in
`data_ptr<float>()`) are rendered as errors tagged with their origin.
-/

namespace Custom

/-- Tensor element dtypes relevant to the binding layer. -/
inductive DType
  | float32
  | float16
  | float64
  | int64
deriving DecidableEq

/-- A host-framework tensor handle: a shape (ordered dimension sizes), a
dtype, and the address of its device buffer. The binding layer never looks
inside the buffer. -/
structure Tensor where
  shape : List Nat
  dtype : DType
  data : Nat
deriving DecidableEq

/-- Where an error originates: the host framework (ATen / pybind machinery)
or this binding layer itself. -/
inductive ErrSource
  | framework
  | binding
deriving DecidableEq

/-- The kinds of failure that can arise around the binding code. -/
inductive ErrKind
  | dimOutOfRange
  | dtypeMismatch
  | invalidArgument
  | attributeNotFound
deriving DecidableEq

/-- An error: its origin and its kind. -/
structure Err where
  source : ErrSource
  kind : ErrKind
deriving DecidableEq

/-- Conversion of a nonnegative 64-bit size to the C `int` parameter type of
the kernels: two's-complement wrap-around at 32 bits, as happens in
`int M = in_a.size(0);` and in passing `int64_t` sizes to `int` parameters. -/
def toInt32 (n : Nat) : Int :=
  if n % 2 ^ 32 < 2 ^ 31 then ((n % 2 ^ 32 : Nat) : Int)
  else ((n % 2 ^ 32 : Nat) : Int) - 2 ^ 32

/-- `at::Tensor::size(d)`: bounds-checked dimension lookup. An out-of-range
dimension raises an IndexError inside the host framework, before any use of
the value. -/
def Tensor.size (t : Tensor) (d : Nat) : Except Err Nat :=
  match t.shape[d]? with
  | some v => Except.ok v
  | none => Except.error ⟨ErrSource.framework, ErrKind.dimOutOfRange⟩

/-- `at::Tensor::numel()`: product of the dimension sizes. -/
def Tensor.numel (t : Tensor) : Nat := t.shape.prod

/-- Untyped `data_ptr()`: hands out the raw buffer address with no check. -/
def Tensor.data_ptr (t : Tensor) : Nat := t.data

/-- Typed `data_ptr<float>()`: the host framework checks that the tensor's
dtype is float32 before handing out the pointer, and raises otherwise. -/
def Tensor.data_ptr_float (t : Tensor) : Except Err Nat :=
  if t.dtype = DType.float32 then Except.ok t.data
  else Except.error ⟨ErrSource.framework, ErrKind.dtypeMismatch⟩

/-- `at::Tensor::sizes()`: the shape as an array view (`IntArrayRef`). -/
def Tensor.sizes (t : Tensor) : List Nat := t.shape

/-- `at::ArrayRef::operator[]`: unchecked indexing. An out-of-range read is
undefined behavior in the C++ source (no check, no exception); it is rendered
here as the default value 0. The claims only exercise in-range indices. -/
def arrayRefGet (l : List Nat) (i : Nat) : Nat := l.getD i 0

/-- The argument vectors of the two external kernel entry points, captured at
the call site: raw pointer addresses, C `int` dimension arguments, and the
stream handle, in the source's argument order. -/
inductive KernelCall
  | llGemm1 (a b c : Nat) (M K : Int) (stream : Nat)
  | mmGPUKernel (a b c : Nat)
      (numARows numAColumns numBRows numBColumns numCRows numCColumns : Int)
      (stream : Nat)
deriving DecidableEq

/-- Observable actions the binding layer could take. The code only ever emits
kernel launches; the other constructors exist so their absence is a statable
property (no synchronization, no allocation or release, no in-place resize). -/
inductive Effect
  | kernelLaunch (call : KernelCall)
  | streamSynchronize
  | allocate (bytes : Nat)
  | release (addr : Nat)
  | resizeInPlace (addr : Nat) (newShape : List Nat)
deriving DecidableEq

/-- Whether an effect is a kernel launch. -/
def Effect.isKernelLaunch : Effect → Bool
  | Effect.kernelLaunch _ => true
  | _ => false

/-- Host execution context: `at::cuda::getCurrentCUDAStream()` reads the
current stream handle from here. -/
structure Ctx where
  currentStream : Nat
deriving DecidableEq

/-- `at::cuda::getCurrentCUDAStream()`. -/
def getCurrentCUDAStream (ctx : Ctx) : Nat := ctx.currentStream

/-- Outcome of one call into the binding layer: the three tensor handles as
the caller sees them afterwards, the effects performed in program order, and
the pending exception if one was raised. The C++ functions return `void`, so
there is no return-value component. When an error is raised, everything after
the raising point is skipped, so the trace holds only the effects that
happened before it. -/
structure CallResult where
  a' : Tensor
  b' : Tensor
  c' : Tensor
  effects : List Effect
  error : Option Err
deriving DecidableEq

/-- Origin of the error recorded in a result, defaulting to the framework
when no error occurred. `errorSource r = ErrSource.framework` therefore says
exactly that the binding layer itself raised nothing. -/
def CallResult.errorSource (r : CallResult) : ErrSource :=
  (r.error.map Err.source).getD ErrSource.framework

/-- The size-mismatch check written inside `LLMM1` but commented out in the
source (`if (N != in_b.numel()) throw std::invalid_argument(...)`): comparing
a size value against `in_b.numel()` and raising `std::invalid_argument` from
the binding layer on mismatch. Recorded only to document what the disabled
code would do; `LLMM1` below never consults it. -/
def disabledSizeCheck (n : Nat) (in_b : Tensor) : Option Err :=
  if n ≠ in_b.numel then some ⟨ErrSource.binding, ErrKind.invalidArgument⟩
  else none

/-- `LLMM1(in_a, in_b, out_c)` from the source: read `M = in_a.size(0)` and
`K = in_a.size(1)` (each lookup can raise inside the framework), then call
`LLGemm1` with the three untyped raw data pointers, `M`, `K`, and the current
stream, in that order. The commented-out size check and the commented-out
`out_c.resize_` do not run. -/
def LLMM1 (ctx : Ctx) (in_a in_b out_c : Tensor) : CallResult :=
  match in_a.size 0 with
  | Except.error e => ⟨in_a, in_b, out_c, [], some e⟩
  | Except.ok s0 =>
    match in_a.size 1 with
    | Except.error e => ⟨in_a, in_b, out_c, [], some e⟩
    | Except.ok s1 =>
      ⟨in_a, in_b, out_c,
        [Effect.kernelLaunch (KernelCall.llGemm1 in_a.data_ptr in_b.data_ptr
          out_c.data_ptr (toInt32 s0) (toInt32 s1)
          (getCurrentCUDAStream ctx))],
        none⟩

/-- `MMCustomGPU(in_a, in_b, out_c)` from the source: take the three shape
views, extract the three typed float pointers (each extraction can raise a
dtype error inside the framework), then call `MMGPUKernel` with the typed
pointers, the first two entries of each shape in the order A-rows, A-columns,
B-rows, B-columns, C-rows, C-columns, and the current stream. -/
def MMCustomGPU (ctx : Ctx) (in_a in_b out_c : Tensor) : CallResult :=
  let matA_sizes := in_a.sizes
  let matB_sizes := in_b.sizes
  let matO_sizes := out_c.sizes
  match in_a.data_ptr_float with
  | Except.error e => ⟨in_a, in_b, out_c, [], some e⟩
  | Except.ok pa =>
    match in_b.data_ptr_float with
    | Except.error e => ⟨in_a, in_b, out_c, [], some e⟩
    | Except.ok pb =>
      match out_c.data_ptr_float with
      | Except.error e => ⟨in_a, in_b, out_c, [], some e⟩
      | Except.ok pc =>
        ⟨in_a, in_b, out_c,
          [Effect.kernelLaunch (KernelCall.mmGPUKernel pa pb pc
            (toInt32 (arrayRefGet matA_sizes 0)) (toInt32 (arrayRefGet matA_sizes 1))
            (toInt32 (arrayRefGet matB_sizes 0)) (toInt32 (arrayRefGet matB_sizes 1))
            (toInt32 (arrayRefGet matO_sizes 0)) (toInt32 (arrayRefGet matO_sizes 1))
            (getCurrentCUDAStream ctx))],
          none⟩

/-- The exposed-name string used in `m.def("LLMM1", &LLMM1)`. -/
def llmm1Name : String := "LLMM1"

/-- The exposed name the commented-out `m.def` line would have registered. -/
def mmCustomGPUName : String := "MMCustomGPU"

/-- The native functions a module entry can be bound to. -/
inductive BindingFn
  | llmm1
  | mmCustomGPU
deriving DecidableEq

/-- The `PYBIND11_MODULE` body: `m.def("LLMM1", &LLMM1)` is the only active
registration; the `MMCustomGPU` registration line is commented out. -/
def moduleDefs : List (String × BindingFn) := [(llmm1Name, BindingFn.llmm1)]

/-- The module docstring set by `m.doc()`. -/
def moduleDoc : String := "pybind11 example plugin"

/-- Python attribute lookup on the extension module: find the registered
symbol, or fail with the framework's attribute-not-found error. -/
def getattr (name : String) : Except Err BindingFn :=
  match moduleDefs.find? (fun p => p.1 == name) with
  | some p => Except.ok p.2
  | none => Except.error ⟨ErrSource.framework, ErrKind.attributeNotFound⟩

/-- A list of length at least two starts with two elements. -/
lemma exists_cons_cons_of_two_le_length {l : List Nat} (h : 2 ≤ l.length) :
    ∃ x y t, l = x :: y :: t := by
  match l with
  | [] => simp at h
  | [x] => simp at h
  | x :: y :: t => exact ⟨x, y, t, rfl⟩

/-- A list of length below two is empty or a singleton. -/
lemma short_list_cases {l : List Nat} (h : l.length < 2) :
    l = [] ∨ ∃ x, l = [x] := by
  match l with
  | [] => exact Or.inl rfl
  | [x] => exact Or.inr ⟨x, rfl⟩
  | x :: y :: t => simp only [List.length_cons] at h; omega

/-- The C `int` conversion is the identity below 2^31. -/
lemma toInt32_eq_of_lt {n : Nat} (h : n < 2 ^ 31) : toInt32 n = (n : Int) := by
  have h32 : n < 2 ^ 32 := lt_trans h (by norm_num)
  rw [toInt32, Nat.mod_eq_of_lt h32, if_pos h]

/-- Claim C1: for every call `LLMM1(in_a, in_b, out_c)` where `in_a` has at
least two dimensions, the binding reads `M = in_a.size(0)` and
`K = in_a.size(1)`, obtains the current stream, and calls `LLGemm1` with
exactly the three raw data pointers, the values M and K, and that stream, in
that argument order; the C `int` conversion leaves any dimension size below
2^31 unmodified. -/
theorem C1_llmm1_forwards_exact_arguments (ctx : Ctx) (in_a in_b out_c : Tensor)
    (h : 2 ≤ in_a.shape.length) :
    (LLMM1 ctx in_a in_b out_c).effects =
      [Effect.kernelLaunch (KernelCall.llGemm1 in_a.data_ptr in_b.data_ptr
        out_c.data_ptr (toInt32 (in_a.shape.getD 0 0))
        (toInt32 (in_a.shape.getD 1 0)) (getCurrentCUDAStream ctx))] ∧
    (LLMM1 ctx in_a in_b out_c).error = none ∧
    (in_a.shape.getD 0 0 < 2 ^ 31 →
      toInt32 (in_a.shape.getD 0 0) = (in_a.shape.getD 0 0 : Int)) ∧
    (in_a.shape.getD 1 0 < 2 ^ 31 →
      toInt32 (in_a.shape.getD 1 0) = (in_a.shape.getD 1 0 : Int)) := by
  obtain ⟨sh, dt, da⟩ := in_a
  obtain ⟨x, y, t, rfl⟩ := exists_cons_cons_of_two_le_length h
  refine ⟨?_, ?_, fun hx => toInt32_eq_of_lt hx, fun hy => toInt32_eq_of_lt hy⟩ <;>
    simp [LLMM1, Tensor.size, Tensor.data_ptr, getCurrentCUDAStream]

/-- Witness for C1: a concrete call forwards pointers 100, 200, 300, the
dimension values 2 and 3, and stream 5, in that order. -/
theorem C1_witness :
    (LLMM1 ⟨5⟩ ⟨[2, 3], DType.float32, 100⟩ ⟨[3], DType.float32, 200⟩
        ⟨[2], DType.float32, 300⟩).effects =
      [Effect.kernelLaunch (KernelCall.llGemm1 100 200 300 2 3 5)] := by
  have h := C1_llmm1_forwards_exact_arguments ⟨5⟩ ⟨[2, 3], DType.float32, 100⟩
    ⟨[3], DType.float32, 200⟩ ⟨[2], DType.float32, 300⟩ (by decide)
  rw [h.1]
  decide

/-- Claim C2: the extension module registers exactly one callable symbol,
named "LLMM1", bound to the native `LLMM1`; "MMCustomGPU" is not registered,
so attribute lookup on that name fails with the framework's not-found
error. -/
theorem C2_module_registers_only_llmm1 :
    moduleDefs = [(llmm1Name, BindingFn.llmm1)] ∧
    getattr llmm1Name = Except.ok BindingFn.llmm1 ∧
    getattr mmCustomGPUName =
      Except.error ⟨ErrSource.framework, ErrKind.attributeNotFound⟩ :=
  ⟨rfl, rfl, rfl⟩

/-- Claim C3: `LLMM1` performs no active validation: whenever `in_a` has at
least two dimensions the call proceeds unconditionally to the kernel launch
with no error — whatever `in_b` is, including when
`in_a.numel() != in_b.numel()` — and the control flow and kernel call never
depend on `in_b`'s shape or element count, only on its buffer address. -/
theorem C3_llmm1_no_active_validation (ctx : Ctx) (in_a in_b out_c : Tensor)
    (h : 2 ≤ in_a.shape.length) :
    (LLMM1 ctx in_a in_b out_c).error = none ∧
    (∃ call, (LLMM1 ctx in_a in_b out_c).effects = [Effect.kernelLaunch call]) ∧
    (∀ b2 : Tensor, b2.data = in_b.data →
      (LLMM1 ctx in_a b2 out_c).effects = (LLMM1 ctx in_a in_b out_c).effects ∧
      (LLMM1 ctx in_a b2 out_c).error = (LLMM1 ctx in_a in_b out_c).error) := by
  obtain ⟨sh, dt, da⟩ := in_a
  obtain ⟨x, y, t, rfl⟩ := exists_cons_cons_of_two_le_length h
  refine ⟨?_, ?_, fun b2 hb2 => ⟨?_, ?_⟩⟩
  · simp [LLMM1, Tensor.size]
  · exact ⟨KernelCall.llGemm1 da in_b.data out_c.data (toInt32 x) (toInt32 y)
      ctx.currentStream,
      by simp [LLMM1, Tensor.size, Tensor.data_ptr, getCurrentCUDAStream]⟩
  · simp [LLMM1, Tensor.size, Tensor.data_ptr, hb2]
  · simp [LLMM1, Tensor.size]

/-- Witness for C3: a call with mismatched element counts (numel 6 vs 100)
still records no error. -/
theorem C3_witness :
    (LLMM1 ⟨0⟩ ⟨[2, 3], DType.float32, 1⟩ ⟨[100], DType.float32, 2⟩
        ⟨[2], DType.float32, 3⟩).error = none :=
  (C3_llmm1_no_active_validation ⟨0⟩ ⟨[2, 3], DType.float32, 1⟩
    ⟨[100], DType.float32, 2⟩ ⟨[2], DType.float32, 3⟩ (by decide)).1

/-- Claim C4: the binding layer itself never raises: for every context and
every input triple, the error origin recorded by `LLMM1` and by `MMCustomGPU`
is the host framework, never the binding code (whose only throw site is
commented out). -/
theorem C4_no_binding_layer_exception (ctx : Ctx) (a b c : Tensor) :
    (LLMM1 ctx a b c).errorSource = ErrSource.framework ∧
    (MMCustomGPU ctx a b c).errorSource = ErrSource.framework := by
  constructor
  · rcases h0 : a.shape[0]? with _ | s0
    · simp [LLMM1, Tensor.size, h0, CallResult.errorSource]
    · rcases h1 : a.shape[1]? with _ | s1 <;>
        simp [LLMM1, Tensor.size, h0, h1, CallResult.errorSource]
  · by_cases hda : a.dtype = DType.float32 <;>
      by_cases hdb : b.dtype = DType.float32 <;>
        by_cases hdc : c.dtype = DType.float32 <;>
          simp [MMCustomGPU, Tensor.data_ptr_float, hda, hdb, hdc,
            CallResult.errorSource]

/-- Claim C5 counterexample: the claim says the `MMGPUKernel` invocation in
`MMCustomGPU`'s body is fully commented out so that no kernel call is ever
made; at concrete 2x2 float tensors the body does make a kernel call — the
invocation is active in the source. -/
theorem C5_counterexample :
    (MMCustomGPU ⟨1⟩ ⟨[2, 2], DType.float32, 10⟩ ⟨[2, 2], DType.float32, 20⟩
        ⟨[2, 2], DType.float32, 30⟩).effects =
      [Effect.kernelLaunch (KernelCall.mmGPUKernel 10 20 30 2 2 2 2 2 2 1)] ∧
    (MMCustomGPU ⟨1⟩ ⟨[2, 2], DType.float32, 10⟩ ⟨[2, 2], DType.float32, 20⟩
        ⟨[2, 2], DType.float32, 30⟩).effects ≠ [] := by
  decide

/-- Claim C5 (amended): the `MMGPUKernel` invocation inside `MMCustomGPU` is
active, not commented out: for every call whose three tensors are float32 the
body makes exactly one kernel call (what is commented out is `MMCustomGPU`'s
module registration, not its kernel invocation). -/
theorem C5_mmcustomgpu_kernel_call_active (ctx : Ctx) (a b c : Tensor)
    (ha : a.dtype = DType.float32) (hb : b.dtype = DType.float32)
    (hc : c.dtype = DType.float32) :
    ∃ call, (MMCustomGPU ctx a b c).effects = [Effect.kernelLaunch call] :=
  ⟨KernelCall.mmGPUKernel a.data b.data c.data
    (toInt32 (arrayRefGet a.sizes 0)) (toInt32 (arrayRefGet a.sizes 1))
    (toInt32 (arrayRefGet b.sizes 0)) (toInt32 (arrayRefGet b.sizes 1))
    (toInt32 (arrayRefGet c.sizes 0)) (toInt32 (arrayRefGet c.sizes 1))
    ctx.currentStream,
    by simp [MMCustomGPU, Tensor.data_ptr_float, ha, hb, hc, Tensor.sizes,
      getCurrentCUDAStream]⟩

/-- Witness for the amended C5: a concrete float call emits a kernel
launch. -/
theorem C5_witness :
    ∃ call,
      (MMCustomGPU ⟨2⟩ ⟨[1, 1], DType.float32, 1⟩ ⟨[1, 1], DType.float32, 2⟩
        ⟨[1, 1], DType.float32, 3⟩).effects = [Effect.kernelLaunch call] :=
  C5_mmcustomgpu_kernel_call_active ⟨2⟩ ⟨[1, 1], DType.float32, 1⟩
    ⟨[1, 1], DType.float32, 2⟩ ⟨[1, 1], DType.float32, 3⟩ rfl rfl rfl

/-- Claim C6: for a call `MMCustomGPU(in_a, in_b, out_c)` with all three
tensors two-dimensional and float-typed, the body calls `MMGPUKernel` with
the three typed float pointers, then the six dimension values in the order
A-rows, A-columns, B-rows, B-columns, C-rows, C-columns taken from the first
two entries of each tensor's shape view, and finally the current stream. -/
theorem C6_mmcustomgpu_forwards_exact_arguments (ctx : Ctx) (a b c : Tensor)
    (h2a : a.shape.length = 2) (h2b : b.shape.length = 2)
    (h2c : c.shape.length = 2) (ha : a.dtype = DType.float32)
    (hb : b.dtype = DType.float32) (hc : c.dtype = DType.float32) :
    (MMCustomGPU ctx a b c).effects =
      [Effect.kernelLaunch (KernelCall.mmGPUKernel a.data b.data c.data
        (toInt32 (arrayRefGet a.sizes 0)) (toInt32 (arrayRefGet a.sizes 1))
        (toInt32 (arrayRefGet b.sizes 0)) (toInt32 (arrayRefGet b.sizes 1))
        (toInt32 (arrayRefGet c.sizes 0)) (toInt32 (arrayRefGet c.sizes 1))
        (getCurrentCUDAStream ctx))] ∧
    (MMCustomGPU ctx a b c).error = none := by
  constructor <;> simp [MMCustomGPU, Tensor.data_ptr_float, ha, hb, hc,
    Tensor.sizes]

/-- Witness for C6: a concrete 2x3 by 3x4 float call forwards pointers
7, 8, 9, the six dimension values 2, 3, 3, 4, 2, 4, and stream 6. -/
theorem C6_witness :
    (MMCustomGPU ⟨6⟩ ⟨[2, 3], DType.float32, 7⟩ ⟨[3, 4], DType.float32, 8⟩
        ⟨[2, 4], DType.float32, 9⟩).effects =
      [Effect.kernelLaunch (KernelCall.mmGPUKernel 7 8 9 2 3 3 4 2 4 6)] := by
  have h := C6_mmcustomgpu_forwards_exact_arguments ⟨6⟩
    ⟨[2, 3], DType.float32, 7⟩ ⟨[3, 4], DType.float32, 8⟩
    ⟨[2, 4], DType.float32, 9⟩ rfl rfl rfl rfl rfl rfl
  rw [h.1]
  decide

/-- Claim C7: the binding layer mutates nothing it is given: for every call
the three tensor handles (shape, dtype, buffer) come back unchanged — the
`out_c.resize_` is disabled — and every effect the layer performs is a kernel
launch: no allocation, no release, no in-place resize, so any write to
`out_c`'s buffer can only come from the external kernel. -/
theorem C7_llmm1_frame (ctx : Ctx) (a b c : Tensor) :
    (LLMM1 ctx a b c).a' = a ∧ (LLMM1 ctx a b c).b' = b ∧
    (LLMM1 ctx a b c).c' = c ∧
    (LLMM1 ctx a b c).effects.all Effect.isKernelLaunch = true := by
  rcases h0 : a.shape[0]? with _ | s0
  · simp [LLMM1, Tensor.size, h0]
  · rcases h1 : a.shape[1]? with _ | s1 <;>
      simp [LLMM1, Tensor.size, h0, h1, Effect.isKernelLaunch]

/-- Claim C8: a call to `LLMM1` whose `in_a` has at least two dimensions
performs exactly one effect — a single kernel launch enqueued on the current
stream — and nothing else: no synchronization, no blocking wait, no
completion check appears in its trace. -/
theorem C8_llmm1_single_async_launch (ctx : Ctx) (a b c : Tensor)
    (h : 2 ≤ a.shape.length) :
    ∃ call, (LLMM1 ctx a b c).effects = [Effect.kernelLaunch call] := by
  obtain ⟨sh, dt, da⟩ := a
  obtain ⟨x, y, t, rfl⟩ := exists_cons_cons_of_two_le_length h
  exact ⟨KernelCall.llGemm1 da b.data c.data (toInt32 x) (toInt32 y)
    ctx.currentStream,
    by simp [LLMM1, Tensor.size, Tensor.data_ptr, getCurrentCUDAStream]⟩

/-- Witness for C8: a concrete call's trace is one kernel launch. -/
theorem C8_witness :
    ∃ call,
      (LLMM1 ⟨3⟩ ⟨[4, 5], DType.float32, 11⟩ ⟨[5], DType.float32, 12⟩
        ⟨[4], DType.float32, 13⟩).effects = [Effect.kernelLaunch call] :=
  C8_llmm1_single_async_launch ⟨3⟩ ⟨[4, 5], DType.float32, 11⟩
    ⟨[5], DType.float32, 12⟩ ⟨[4], DType.float32, 13⟩ (by decide)

/-- Claim C9: `LLMM1`'s implicit precondition is that `in_a` has at least two
dimensions: under it both dimension lookups are in bounds and the error
branch is unreachable, while for an `in_a` with fewer than two dimensions the
lookup itself fails inside the framework with the out-of-range error and no
kernel call is made. -/
theorem C9_llmm1_dim_precondition (ctx : Ctx) (a b c : Tensor) :
    (2 ≤ a.shape.length → (LLMM1 ctx a b c).error = none) ∧
    (a.shape.length < 2 →
      (LLMM1 ctx a b c).error =
        some ⟨ErrSource.framework, ErrKind.dimOutOfRange⟩ ∧
      (LLMM1 ctx a b c).effects = []) := by
  obtain ⟨sh, dt, da⟩ := a
  constructor
  · intro h
    obtain ⟨x, y, t, rfl⟩ := exists_cons_cons_of_two_le_length h
    simp [LLMM1, Tensor.size]
  · intro h
    rcases short_list_cases h with rfl | ⟨x, rfl⟩ <;>
      simp [LLMM1, Tensor.size]

/-- Witness for C9: with a 2-dimensional `in_a` no error is recorded; with a
1-dimensional `in_a` the call fails with the framework's out-of-range error
before any kernel call. -/
theorem C9_witness :
    (LLMM1 ⟨0⟩ ⟨[4, 5], DType.float32, 1⟩ ⟨[5], DType.float32, 2⟩
        ⟨[4], DType.float32, 3⟩).error = none ∧
    (LLMM1 ⟨0⟩ ⟨[4], DType.float32, 1⟩ ⟨[5], DType.float32, 2⟩
        ⟨[4], DType.float32, 3⟩).error =
      some ⟨ErrSource.framework, ErrKind.dimOutOfRange⟩ ∧
    (LLMM1 ⟨0⟩ ⟨[4], DType.float32, 1⟩ ⟨[5], DType.float32, 2⟩
        ⟨[4], DType.float32, 3⟩).effects = [] :=
  ⟨(C9_llmm1_dim_precondition ⟨0⟩ ⟨[4, 5], DType.float32, 1⟩
      ⟨[5], DType.float32, 2⟩ ⟨[4], DType.float32, 3⟩).1 (by decide),
    (C9_llmm1_dim_precondition ⟨0⟩ ⟨[4], DType.float32, 1⟩
      ⟨[5], DType.float32, 2⟩ ⟨[4], DType.float32, 3⟩).2 (by decide)⟩

/-- Claim C10: `MMCustomGPU`'s implicit precondition is float32 dtype on all
three tensors: under it every typed pointer extraction succeeds and no error
is recorded, while if any tensor has a different dtype the extraction fails
inside the framework with the dtype error and no kernel call is made. -/
theorem C10_mmcustomgpu_dtype_precondition (ctx : Ctx) (a b c : Tensor) :
    (a.dtype = DType.float32 ∧ b.dtype = DType.float32 ∧
        c.dtype = DType.float32 →
      (MMCustomGPU ctx a b c).error = none) ∧
    (¬(a.dtype = DType.float32 ∧ b.dtype = DType.float32 ∧
        c.dtype = DType.float32) →
      (MMCustomGPU ctx a b c).error =
        some ⟨ErrSource.framework, ErrKind.dtypeMismatch⟩ ∧
      (MMCustomGPU ctx a b c).effects = []) := by
  by_cases hda : a.dtype = DType.float32 <;>
    by_cases hdb : b.dtype = DType.float32 <;>
      by_cases hdc : c.dtype = DType.float32 <;>
        constructor <;>
          simp [MMCustomGPU, Tensor.data_ptr_float, hda, hdb, hdc]

/-- Witness for C10: an all-float call records no error; a call whose second
tensor is int64 fails with the framework's dtype error and makes no kernel
call. -/
theorem C10_witness :
    (MMCustomGPU ⟨0⟩ ⟨[1, 1], DType.float32, 1⟩ ⟨[1, 1], DType.float32, 2⟩
        ⟨[1, 1], DType.float32, 3⟩).error = none ∧
    (MMCustomGPU ⟨0⟩ ⟨[1, 1], DType.float32, 1⟩ ⟨[1, 1], DType.int64, 2⟩
        ⟨[1, 1], DType.float32, 3⟩).error =
      some ⟨ErrSource.framework, ErrKind.dtypeMismatch⟩ ∧
    (MMCustomGPU ⟨0⟩ ⟨[1, 1], DType.float32, 1⟩ ⟨[1, 1], DType.int64, 2⟩
        ⟨[1, 1], DType.float32, 3⟩).effects = [] :=
  ⟨(C10_mmcustomgpu_dtype_precondition ⟨0⟩ ⟨[1, 1], DType.float32, 1⟩
      ⟨[1, 1], DType.float32, 2⟩ ⟨[1, 1], DType.float32, 3⟩).1
      (by exact ⟨rfl, rfl, rfl⟩),
    (C10_mmcustomgpu_dtype_precondition ⟨0⟩ ⟨[1, 1], DType.float32, 1⟩
      ⟨[1, 1], DType.int64, 2⟩ ⟨[1, 1], DType.float32, 3⟩).2 (by decide)⟩

end Custom
